import Mathlib

/-!
Verification of the proxy layer of the httpcore transport core
(`src/httpcore/_sync/http_proxy.py`) and of the request-cleanup path
(`src/httpcore/_async/interfaces.py`), as a shallow embedding.

Byte strings (Python `bytes`) are modelled as `List Nat`, each entry one
byte value; `str` values are modelled as Lean `String`.
-/

namespace Httpcore

/-- Python `bytes`: a list of byte values. -/
abbrev Bytes := List Nat

/-- ASCII-lowercase a single byte, as Python `bytes.lower` does per byte. -/
def lowerByte (b : Nat) : Nat :=
  if 65 ≤ b ∧ b ≤ 90 then b + 32 else b

/-- Python `bytes.lower()`: ASCII-lowercase every byte. -/
def lowerBytes (s : Bytes) : Bytes := s.map lowerByte

/-- Literal ASCII byte strings, to write constants such as b"Accept". -/
def asciiBytes (s : String) : Bytes := s.toList.map Char.toNat

/-- Embedding of `merge_headers` (http_proxy.py lines 32-48): a `None`
argument becomes the empty list; collect the lowercased names of the
override entries (the Python code collects them in a `set`, modelled here
as a list queried by membership); keep only the default entries whose
lowercased name is not among them; append the overrides after. -/
def merge_headers (default_headers override_headers : Option (List (Bytes × Bytes))) :
    List (Bytes × Bytes) :=
  let d := default_headers.getD []
  let o := override_headers.getD []
  let has_override := o.map (fun kv => lowerBytes kv.1)
  let kept := d.filter (fun kv => decide (lowerBytes kv.1 ∉ has_override))
  kept ++ o

/-- Statement of the merge rule in the words of the spec: the default entries
whose lowercased name is not the lowercased name of any override entry, in
order, followed by all override entries. -/
def merge_headers_spec (default_headers override_headers : Option (List (Bytes × Bytes))) :
    List (Bytes × Bytes) :=
  let d := default_headers.getD []
  let o := override_headers.getD []
  d.filter (fun kv => decide (∀ kv2 ∈ o, lowerBytes kv.1 ≠ lowerBytes kv2.1)) ++ o

/-- The set-membership filter of the code agrees with the per-entry
quantification of the spec. -/
theorem merge_headers_eq_spec (d o : Option (List (Bytes × Bytes))) :
    merge_headers d o = merge_headers_spec d o := by
  unfold merge_headers merge_headers_spec
  refine congrArg (· ++ o.getD []) ?_
  refine List.filter_congr ?_
  intro kv _
  simp only [decide_eq_decide, List.mem_map]
  push_neg
  constructor
  · intro h kv2 hkv2 heq
    exact h kv2 hkv2 heq.symm
  · intro h kv2 hkv2 heq
    exact h kv2 hkv2 heq.symm

/-- C1: for every pair of optional header lists, `merge_headers` returns
exactly the default entries whose lowercased name is not the lowercased
name of any override entry, in their original order, followed by all
override entries in their original order; a `None` argument is treated as
the empty list. -/
theorem merge_headers_correct (d o : Option (List (Bytes × Bytes))) :
    merge_headers d o =
      (d.getD []).filter
          (fun kv => decide (∀ kv2 ∈ o.getD [], lowerBytes kv.1 ≠ lowerBytes kv2.1))
        ++ o.getD [] :=
  merge_headers_eq_spec d o

/-- Filtering a list by the complement of its own lowercased names removes
everything. -/
theorem filter_self_override_eq_nil (o : List (Bytes × Bytes)) :
    o.filter (fun kv => decide (lowerBytes kv.1 ∉ o.map (fun kv2 => lowerBytes kv2.1))) = [] := by
  refine List.filter_eq_nil_iff.mpr ?_
  intro kv hkv
  simp only [decide_eq_true_eq, List.mem_map, not_not, not_forall]
  exact ⟨kv, hkv, rfl⟩

/-- C8: header merging is idempotent in its first argument:
merge_headers(merge_headers(d, o), o) = merge_headers(d, o). -/
theorem merge_headers_idempotent (d o : Option (List (Bytes × Bytes))) :
    merge_headers (some (merge_headers d o)) o = merge_headers d o := by
  unfold merge_headers
  simp only [Option.getD_some]
  rw [List.filter_append, List.filter_filter]
  rw [filter_self_override_eq_nil]
  simp [Bool.and_self]

/-- Character of the standard base64 alphabet at index n (n < 64). -/
def b64char (n : Nat) : Nat :=
  if n < 26 then 65 + n
  else if n < 52 then 97 + (n - 26)
  else if n < 62 then 48 + (n - 52)
  else if n = 62 then 43
  else 47

/-- Standard base64 of a byte string (RFC 4648, with = padding), modelling
the Python standard-library function base64.b64encode used by
build_auth_header; stdlib code is outside src/. -/
def b64encode : Bytes → Bytes
  | [] => []
  | [a] => [b64char (a / 4), b64char (a % 4 * 16), 61, 61]
  | [a, b] => [b64char (a / 4), b64char (a % 4 * 16 + b / 16), b64char (b % 16 * 4), 61]
  | a :: b :: c :: rest =>
      b64char (a / 4) :: b64char (a % 4 * 16 + b / 16) ::
        b64char (b % 16 * 4 + c / 64) :: b64char (c % 64) :: b64encode rest

/-- Embedding of `build_auth_header` (http_proxy.py lines 51-53). -/
def build_auth_header (username password : Bytes) : Bytes :=
  let userpass := username ++ asciiBytes ":" ++ password
  asciiBytes "Basic " ++ b64encode userpass

/-- Proxy-headers initialisation of `HTTPProxy.__init__` (http_proxy.py
lines 129-137): when proxy_auth is given, a Proxy-Authorization entry is
prepended to the caller-supplied proxy_headers. `enforce_bytes` and
`enforce_headers` (from _models.py, outside src/) are identities on values
that are already byte strings, which is how they are modelled here. -/
def httpProxyProxyHeaders (proxy_auth : Option (Bytes × Bytes))
    (proxy_headers : List (Bytes × Bytes)) : List (Bytes × Bytes) :=
  match proxy_auth with
  | none => proxy_headers
  | some up =>
      let authorization := build_auth_header up.1 up.2
      [(asciiBytes "Proxy-Authorization", authorization)] ++ proxy_headers

/-- C9: when proxy_auth = (username, password) is given, the header
(b"Proxy-Authorization", b"Basic " + base64(username + b":" + password))
is prepended before all caller-supplied proxy_headers, so it precedes any
caller-supplied entry of the same name. -/
theorem proxy_auth_header_prepended (u p : Bytes) (hs : List (Bytes × Bytes)) :
    httpProxyProxyHeaders (some (u, p)) hs =
      (asciiBytes "Proxy-Authorization",
        asciiBytes "Basic " ++ b64encode (u ++ asciiBytes ":" ++ p)) :: hs := rfl

/-- Origin: (scheme, host, port), equality structural (_models.py, used
throughout http_proxy.py). -/
structure Origin where
  scheme : Bytes
  host : Bytes
  port : Nat
deriving DecidableEq

/-- Modelled from the spec: the ProxyMode enum lives in _models.py, which
is not under src/. The members DEFAULT and FORWARD are the ones
create_connection compares against; the docstring "Allow HTTP connection
be tunnelable and HTTPS be forwardable" also names a tunnel-forcing mode,
which falls into the else branch of create_connection. -/
inductive ProxyMode where
  | DEFAULT
  | FORWARD
  | TUNNEL
deriving DecidableEq

/-- Connection object returned by `HTTPProxy.create_connection`, reduced
to its variant and constructor arguments. -/
inductive CreatedConnection where
  | forwardConn (proxy_origin : Origin) (proxy_headers : List (Bytes × Bytes))
      (remote_origin : Origin)
  | tunnelConn (proxy_origin : Origin) (proxy_headers : List (Bytes × Bytes))
      (remote_origin : Origin) (http1 http2 : Bool)
deriving DecidableEq

/-- Whether a created connection is the forwarding (non-tunneling) kind. -/
def CreatedConnection.isForwardConn : CreatedConnection → Bool
  | .forwardConn _ _ _ => true
  | .tunnelConn _ _ _ _ _ => false

/-- Embedding of `HTTPProxy.create_connection` (http_proxy.py lines
139-159): forward when proxy_mode is FORWARD, or when proxy_mode is
DEFAULT and the origin scheme is http; otherwise tunnel. -/
def create_connection (proxy_mode : ProxyMode) (proxy_url_origin : Origin)
    (proxy_headers : List (Bytes × Bytes)) (http1 http2 : Bool) (origin : Origin) :
    CreatedConnection :=
  if proxy_mode = ProxyMode.FORWARD ∨
      (proxy_mode = ProxyMode.DEFAULT ∧ origin.scheme = asciiBytes "http") then
    .forwardConn proxy_url_origin proxy_headers origin
  else
    .tunnelConn proxy_url_origin proxy_headers origin http1 http2

/-- C7 counterexample: with proxy_mode = FORWARD, an https origin is served
by a forwarding connection, refuting the claim that forwarding happens only
for http origins. -/
theorem create_connection_forward_https_counterexample :
    (create_connection ProxyMode.FORWARD ⟨asciiBytes "http", asciiBytes "p", 3128⟩ []
        true false ⟨asciiBytes "https", asciiBytes "s", 443⟩).isForwardConn = true
    ∧ (⟨asciiBytes "https", asciiBytes "s", 443⟩ : Origin).scheme ≠ asciiBytes "http" := by
  decide

/-- C7 (amended): create_connection returns a forwarding connection iff
proxy_mode is FORWARD, or proxy_mode is DEFAULT and the origin scheme is
http; in particular under the default proxy mode an https destination is
never served by a ForwardHTTPConnection. -/
theorem create_connection_forward_iff (m : ProxyMode) (po : Origin)
    (phs : List (Bytes × Bytes)) (h1 h2 : Bool) (origin : Origin) :
    (create_connection m po phs h1 h2 origin).isForwardConn = true ↔
      (m = ProxyMode.FORWARD ∨
        (m = ProxyMode.DEFAULT ∧ origin.scheme = asciiBytes "http")) := by
  unfold create_connection
  split <;> simp_all [CreatedConnection.isForwardConn]

/-- Parameters observable on a TLS-upgraded stream: the ALPN protocol list
set on the SSL context just before start_tls, and the SNI server_hostname
passed to start_tls (the code passes remote host .decode("ascii"), modelled
by the host bytes themselves). -/
structure TLSParams where
  alpn_protocols : List String
  server_hostname : Bytes
deriving DecidableEq

/-- Network stream: either the raw stream handed back by the CONNECT
response, or a stream produced from it by stream.start_tls. -/
inductive Stream where
  | base (id : Nat) : Stream
  | tls (inner : Stream) (params : TLSParams) : Stream
deriving DecidableEq

/-- The CONNECT response fields the tunnel handshake reads: the status
code, the reason_phrase extension (absent modelled as none; the code
defaults it to b""), and the network_stream extension. -/
structure ConnectResponse where
  status : Nat
  reason_phrase : Option Bytes
  network_stream : Stream
deriving DecidableEq

/-- Payload of the ProxyError raised on a failed CONNECT, together with
whether the proxy connection was closed before raising. -/
structure ProxyErrorInfo where
  message : String
  connection_closed : Bool
deriving DecidableEq

/-- TLS environment for the handshake: the result of
stream.get_extra_info("ssl_object") after start_tls. The outer Option is
whether an ssl_object is present; the inner Option String is
ssl_object.selected_alpn_protocol(). -/
structure TLSEnv where
  ssl_object : Option (Option String)
deriving DecidableEq

/-- Configuration of a TunnelHTTPConnection (http_proxy.py lines 225-251)
relevant to the CONNECT handshake. -/
structure TunnelConnection where
  proxy_origin : Origin
  remote_origin : Origin
  http1 : Bool
  http2 : Bool
  proxy_headers : List (Bytes × Bytes)
deriving DecidableEq

/-- Python str(n) for a natural number: its decimal digits as bytes,
modelling the %d conversion. -/
def natToAscii (n : Nat) : Bytes := (Nat.toDigits 10 n).map Char.toNat

/-- The CONNECT target b"%b:%d" % (host, port) (http_proxy.py line 259). -/
def connectTarget (remote : Origin) : Bytes :=
  remote.host ++ asciiBytes ":" ++ natToAscii remote.port

/-- Headers of the CONNECT request (http_proxy.py lines 267-269):
merge_headers([(b"Host", target), (b"Accept", b"*/*")], proxy_headers). -/
def tunnelConnectHeaders (t : TunnelConnection) : List (Bytes × Bytes) :=
  merge_headers
    (some [(asciiBytes "Host", connectTarget t.remote_origin),
           (asciiBytes "Accept", asciiBytes "*/*")])
    (some t.proxy_headers)

/-- Python bytes.decode("ascii", errors="ignore"): keep the bytes below
128, as characters. -/
def asciiDecodeIgnore (bs : Bytes) : String :=
  String.mk ((bs.filter (fun b => decide (b < 128))).map Char.ofNat)

/-- Variant of connection the handshake installs as the new wrapped
connection. -/
inductive ConnKind where
  | http11Kind
  | http2Kind
deriving DecidableEq

/-- The new wrapped connection created at the end of the handshake: its
protocol, the origin it is bound to, and the stream it is bound to. -/
structure NewConnection where
  kind : ConnKind
  origin : Origin
  stream : Stream
deriving DecidableEq

/-- Embedding of the CONNECT handshake portion of
`TunnelHTTPConnection.handle_request` (http_proxy.py lines 280-332), from
the point where the CONNECT response is available. On a non-2xx status the
proxy connection is closed and ProxyError "<status> <reason>" is raised.
Otherwise, when the remote scheme is https the stream is TLS-upgraded
(ALPN list ["http/1.1", "h2"] when http2 is enabled else ["http/1.1"],
SNI = remote host) and h2 negotiation is read off the ssl_object;
then the wrapped connection is replaced by an HTTP/2 connection when h2
was negotiated or (http2 and not http1), else by an HTTP/1.1 connection,
bound to the resulting stream and the remote origin. -/
def tunnelHandshake (t : TunnelConnection) (resp : ConnectResponse) (env : TLSEnv) :
    Except ProxyErrorInfo NewConnection :=
  if resp.status < 200 ∨ resp.status > 299 then
    let reason_bytes := resp.reason_phrase.getD []
    let reason_str := asciiDecodeIgnore reason_bytes
    let msg := toString resp.status ++ " " ++ reason_str
    Except.error { message := msg, connection_closed := true }
  else
    let stream0 := resp.network_stream
    let upgraded :=
      if t.remote_origin.scheme = asciiBytes "https" then
        let alpn_protocols := if t.http2 then ["http/1.1", "h2"] else ["http/1.1"]
        let stream1 := Stream.tls stream0 ⟨alpn_protocols, t.remote_origin.host⟩
        let http2_negotiated :=
          match env.ssl_object with
          | some sel => decide (sel = some "h2")
          | none => false
        (stream1, http2_negotiated)
      else (stream0, false)
    if upgraded.2 = true ∨ (t.http2 = true ∧ t.http1 = false) then
      Except.ok { kind := ConnKind.http2Kind, origin := t.remote_origin, stream := upgraded.1 }
    else
      Except.ok { kind := ConnKind.http11Kind, origin := t.remote_origin, stream := upgraded.1 }

/-- ALPN protocol list set on the SSL context by the handshake
(http_proxy.py line 297). -/
def tunnelAlpnList (t : TunnelConnection) : List String :=
  if t.http2 = true then ["http/1.1", "h2"] else ["http/1.1"]

/-- Stream the new wrapped connection is bound to: TLS-upgraded when the
remote scheme is https, the raw CONNECT stream otherwise. -/
def tunnelResultStream (t : TunnelConnection) (resp : ConnectResponse) : Stream :=
  if t.remote_origin.scheme = asciiBytes "https" then
    Stream.tls resp.network_stream ⟨tunnelAlpnList t, t.remote_origin.host⟩
  else resp.network_stream

/-- Value of the http2_negotiated flag after the optional TLS upgrade
(http_proxy.py lines 288, 310-314): false unless the remote scheme is
https, in which case it is read off the ssl_object. -/
def tunnelH2Negotiated (t : TunnelConnection) (env : TLSEnv) : Bool :=
  if t.remote_origin.scheme = asciiBytes "https" then
    match env.ssl_object with
    | some sel => decide (sel = some "h2")
    | none => false
  else false

/-- On a 2xx CONNECT status the handshake succeeds and installs the
connection determined by the negotiation flag, the protocol flags, the
remote origin and the (possibly TLS-upgraded) stream. -/
theorem tunnelHandshake_ok_eq (t : TunnelConnection) (resp : ConnectResponse)
    (env : TLSEnv) (h : ¬(resp.status < 200 ∨ resp.status > 299)) :
    tunnelHandshake t resp env =
      Except.ok
        { kind := if tunnelH2Negotiated t env = true ∨ (t.http2 = true ∧ t.http1 = false)
              then ConnKind.http2Kind else ConnKind.http11Kind,
          origin := t.remote_origin,
          stream := tunnelResultStream t resp } := by
  unfold tunnelHandshake tunnelResultStream tunnelH2Negotiated tunnelAlpnList
  rw [if_neg h]
  by_cases hs : t.remote_origin.scheme = asciiBytes "https" <;>
    simp only [if_pos, if_neg, hs, if_true, if_false, ite_true, ite_false] <;>
    split <;> simp_all

/-- C2: if the CONNECT response status is not in [200, 300) the proxy
connection is closed and a ProxyError is raised whose message is the
status code, a space, and the ASCII-decoded reason phrase; otherwise no
ProxyError is raised. -/
theorem tunnel_connect_proxy_error (t : TunnelConnection) (resp : ConnectResponse)
    (env : TLSEnv) :
    (¬(200 ≤ resp.status ∧ resp.status < 300) →
        tunnelHandshake t resp env =
          Except.error
            { message := toString resp.status ++ " "
                ++ asciiDecodeIgnore (resp.reason_phrase.getD []),
              connection_closed := true })
    ∧ ((200 ≤ resp.status ∧ resp.status < 300) →
        ∀ e, tunnelHandshake t resp env ≠ Except.error e) := by
  constructor
  · intro h
    unfold tunnelHandshake
    rw [if_pos (by omega)]
  · intro h e
    rw [tunnelHandshake_ok_eq t resp env (by omega)]
    simp

/-- C2 witness: a 407 CONNECT response yields
ProxyError "407 Proxy Authentication Required" with the connection
closed. -/
theorem tunnel_connect_proxy_error_witness :
    tunnelHandshake
        ⟨⟨asciiBytes "http", asciiBytes "p", 3128⟩,
         ⟨asciiBytes "https", asciiBytes "s", 443⟩, true, false, []⟩
        ⟨407, some (asciiBytes "Proxy Authentication Required"), Stream.base 0⟩
        ⟨none⟩ =
      Except.error { message := "407 Proxy Authentication Required",
                     connection_closed := true } :=
  (tunnel_connect_proxy_error _ _ _).1 (by decide)

/-- The negotiation flag is set exactly when the remote scheme is https
and the ssl_object reports protocol h2. -/
theorem tunnelH2Negotiated_iff (t : TunnelConnection) (env : TLSEnv) :
    tunnelH2Negotiated t env = true ↔
      (t.remote_origin.scheme = asciiBytes "https" ∧ env.ssl_object = some (some "h2")) := by
  unfold tunnelH2Negotiated
  by_cases hs : t.remote_origin.scheme = asciiBytes "https" <;>
    cases henv : env.ssl_object <;> simp_all

/-- C3: after a successful CONNECT handshake the wrapped connection is
HTTP/2 iff ALPN negotiated h2 or (http2 enabled and http1 disabled),
otherwise HTTP/1.1; it is bound to the (possibly TLS-upgraded) stream and
to the remote origin, not the proxy origin. -/
theorem tunnel_protocol_selection (t : TunnelConnection) (resp : ConnectResponse)
    (env : TLSEnv) (h : 200 ≤ resp.status ∧ resp.status < 300) :
    ∃ conn, tunnelHandshake t resp env = Except.ok conn
      ∧ (conn.kind = ConnKind.http2Kind ↔
          ((t.remote_origin.scheme = asciiBytes "https"
              ∧ env.ssl_object = some (some "h2"))
            ∨ (t.http2 = true ∧ t.http1 = false)))
      ∧ (conn.kind = ConnKind.http2Kind ∨ conn.kind = ConnKind.http11Kind)
      ∧ conn.origin = t.remote_origin
      ∧ (t.remote_origin ≠ t.proxy_origin → conn.origin ≠ t.proxy_origin)
      ∧ conn.stream = tunnelResultStream t resp := by
  refine ⟨_, tunnelHandshake_ok_eq t resp env (by omega), ?_, ?_, rfl, ?_, rfl⟩
  · rw [← tunnelH2Negotiated_iff]
    split <;> simp_all
  · split <;> simp
  · intro hne
    simpa using hne

/-- C3 witness: a tunnel to an https origin with http2 enabled, where the
peer selects h2 over ALPN, installs an HTTP/2 connection bound to the
remote origin and the TLS stream. -/
theorem tunnel_protocol_selection_witness :
    ∃ conn,
      tunnelHandshake
          ⟨⟨asciiBytes "http", asciiBytes "p", 3128⟩,
           ⟨asciiBytes "https", asciiBytes "s", 443⟩, true, true, []⟩
          ⟨200, none, Stream.base 0⟩ ⟨some (some "h2")⟩ = Except.ok conn
        ∧ (conn.kind = ConnKind.http2Kind ↔
            (((⟨⟨asciiBytes "http", asciiBytes "p", 3128⟩,
                ⟨asciiBytes "https", asciiBytes "s", 443⟩, true, true, []⟩ :
                  TunnelConnection).remote_origin.scheme = asciiBytes "https"
                ∧ (⟨some (some "h2")⟩ : TLSEnv).ssl_object = some (some "h2"))
              ∨ (true = true ∧ true = false)))
        ∧ (conn.kind = ConnKind.http2Kind ∨ conn.kind = ConnKind.http11Kind)
        ∧ conn.origin = ⟨asciiBytes "https", asciiBytes "s", 443⟩
        ∧ ((⟨asciiBytes "https", asciiBytes "s", 443⟩ : Origin) ≠
              ⟨asciiBytes "http", asciiBytes "p", 3128⟩ →
            conn.origin ≠ ⟨asciiBytes "http", asciiBytes "p", 3128⟩)
        ∧ conn.stream =
            tunnelResultStream
              ⟨⟨asciiBytes "http", asciiBytes "p", 3128⟩,
               ⟨asciiBytes "https", asciiBytes "s", 443⟩, true, true, []⟩
              ⟨200, none, Stream.base 0⟩ :=
  tunnel_protocol_selection _ _ _ (by decide)

/-- C4 counterexample: with http2 enabled the code offers the ALPN list
["http/1.1", "h2"], not ["h2", "http/1.1"] as the claim states. -/
theorem tunnel_alpn_order_counterexample :
    tunnelHandshake
        ⟨⟨asciiBytes "http", asciiBytes "p", 3128⟩,
         ⟨asciiBytes "https", asciiBytes "s", 443⟩, true, true, []⟩
        ⟨200, none, Stream.base 0⟩ ⟨some (some "h2")⟩ =
      Except.ok { kind := ConnKind.http2Kind,
                  origin := ⟨asciiBytes "https", asciiBytes "s", 443⟩,
                  stream := Stream.tls (Stream.base 0)
                    ⟨["http/1.1", "h2"], asciiBytes "s"⟩ }
    ∧ (["http/1.1", "h2"] : List String) ≠ ["h2", "http/1.1"] :=
  ⟨rfl, by decide⟩

/-- C4 (amended): during the CONNECT handshake the stream is TLS-upgraded
iff the remote scheme is https; the upgrade offers the ALPN list
["http/1.1", "h2"] when http2 is enabled and ["http/1.1"] otherwise, and
uses the remote origin host as SNI server_hostname. -/
theorem tunnel_tls_upgrade (t : TunnelConnection) (resp : ConnectResponse)
    (env : TLSEnv) (h : 200 ≤ resp.status ∧ resp.status < 300) :
    ∃ conn, tunnelHandshake t resp env = Except.ok conn
      ∧ (t.remote_origin.scheme = asciiBytes "https" →
          conn.stream = Stream.tls resp.network_stream
            ⟨(if t.http2 = true then ["http/1.1", "h2"] else ["http/1.1"]),
             t.remote_origin.host⟩)
      ∧ (t.remote_origin.scheme ≠ asciiBytes "https" →
          conn.stream = resp.network_stream) := by
  refine ⟨_, tunnelHandshake_ok_eq t resp env (by omega), ?_, ?_⟩ <;>
    intro hs <;> simp [tunnelResultStream, tunnelAlpnList, hs]

/-- C4 witness: concrete https tunnel with http2 enabled; the handshake
TLS-upgrades the stream with ALPN ["http/1.1", "h2"] and SNI "s". -/
theorem tunnel_tls_upgrade_witness :
    ∃ conn,
      tunnelHandshake
          ⟨⟨asciiBytes "http", asciiBytes "p", 3128⟩,
           ⟨asciiBytes "https", asciiBytes "s", 443⟩, true, true, []⟩
          ⟨204, none, Stream.base 7⟩ ⟨none⟩ = Except.ok conn
        ∧ ((⟨asciiBytes "https", asciiBytes "s", 443⟩ : Origin).scheme =
              asciiBytes "https" →
            conn.stream = Stream.tls (Stream.base 7)
              ⟨(if true = true then ["http/1.1", "h2"] else ["http/1.1"]),
               (⟨asciiBytes "https", asciiBytes "s", 443⟩ : Origin).host⟩)
        ∧ ((⟨asciiBytes "https", asciiBytes "s", 443⟩ : Origin).scheme ≠
              asciiBytes "https" →
            conn.stream = Stream.base 7) :=
  tunnel_tls_upgrade _ _ _ (by decide)

/-- C10: the CONNECT request headers are the generated defaults
[(b"Host", b"host:port"), (b"Accept", b"*/*")] minus any default whose
lowercased name also appears among the proxy_headers, followed by all
proxy_headers. -/
theorem tunnel_connect_headers_correct (t : TunnelConnection) :
    tunnelConnectHeaders t =
      ([(asciiBytes "Host", connectTarget t.remote_origin),
        (asciiBytes "Accept", asciiBytes "*/*")].filter
          (fun kv => decide (∀ kv2 ∈ t.proxy_headers, lowerBytes kv.1 ≠ lowerBytes kv2.1)))
        ++ t.proxy_headers := by
  unfold tunnelConnectHeaders
  rw [merge_headers_eq_spec]
  rfl

/-- URL value (scheme, host, port, target) as constructed by
http_proxy.py; port is optional in the URL model. -/
structure URLm where
  scheme : Bytes
  host : Bytes
  port : Option Nat
  target : Bytes
deriving DecidableEq

/-- Modelled from the spec: the serialization bytes(request.url) is
implemented in _models.py, which is not under src/. The spec calls it "the
absolute form" of the URL (a request for http://s/x is forwarded with
request-target http://s/x): scheme "://" host, the ":port" part when a
port is present, then the target. -/
def urlAbsoluteForm (u : URLm) : Bytes :=
  u.scheme ++ asciiBytes "://" ++ u.host ++
    (match u.port with
     | none => []
     | some p => asciiBytes ":" ++ natToAscii p) ++ u.target

/-- Request as http_proxy.py manipulates it: method, URL, headers, and the
body stream and extensions, which the proxy code passes through as opaque
values (modelled as tokens). -/
structure Requestm where
  method : Bytes
  url : URLm
  headers : List (Bytes × Bytes)
  stream : Nat
  extensions : Nat
deriving DecidableEq

/-- State of a ForwardHTTPConnection (http_proxy.py lines 162-180). -/
structure ForwardConnection where
  proxy_origin : Origin
  remote_origin : Origin
  proxy_headers : List (Bytes × Bytes)
deriving DecidableEq

/-- Embedding of `ForwardHTTPConnection.handle_request` (http_proxy.py
lines 182-197): the request it hands to the wrapped proxy connection. -/
def forwardHandleRequest (f : ForwardConnection) (request : Requestm) : Requestm :=
  let headers := merge_headers (some f.proxy_headers) (some request.headers)
  let url : URLm :=
    { scheme := f.proxy_origin.scheme, host := f.proxy_origin.host,
      port := some f.proxy_origin.port, target := urlAbsoluteForm request.url }
  { method := request.method, url := url, headers := headers,
    stream := request.stream, extensions := request.extensions }

/-- C5: the request forwarded to the proxy has the proxy origin scheme,
host and port, the absolute form of the original URL as target, headers
merge_headers(proxy_headers, request.headers) — so proxy-supplied headers
lose on case-insensitive name collision — and the original method, body
stream and extensions unchanged. -/
theorem forward_request_rewrite (f : ForwardConnection) (request : Requestm) :
    (forwardHandleRequest f request).url.scheme = f.proxy_origin.scheme
    ∧ (forwardHandleRequest f request).url.host = f.proxy_origin.host
    ∧ (forwardHandleRequest f request).url.port = some f.proxy_origin.port
    ∧ (forwardHandleRequest f request).url.target = urlAbsoluteForm request.url
    ∧ (forwardHandleRequest f request).headers =
        merge_headers (some f.proxy_headers) (some request.headers)
    ∧ (forwardHandleRequest f request).headers =
        (f.proxy_headers.filter
            (fun kv => decide (∀ kv2 ∈ request.headers,
              lowerBytes kv.1 ≠ lowerBytes kv2.1)))
          ++ request.headers
    ∧ (forwardHandleRequest f request).method = request.method
    ∧ (forwardHandleRequest f request).stream = request.stream
    ∧ (forwardHandleRequest f request).extensions = request.extensions := by
  refine ⟨rfl, rfl, rfl, rfl, rfl, ?_, rfl, rfl, rfl⟩
  show merge_headers (some f.proxy_headers) (some request.headers) = _
  rw [merge_headers_eq_spec]
  rfl

/-- Python exception values distinguished by the cleanup code: the
RuntimeError class is special-cased; NameError is what evaluating an
unbound name raises; other exception classes are carried as tokens. -/
inductive PyExc where
  | runtimeError
  | nameError
  | otherExc (k : Nat)
deriving DecidableEq

/-- Nested connection objects as seen by
`AsyncConnectionInterface._cleanup` (interfaces.py lines 172-189): an
object either has no _connection attribute (plain), or has one that is
None (wrapperNone, the attribute holds Python None), or one that is a
nested connection (wrapperSome); a wrapper also records its
_connect_failed flag. -/
inductive ConnTree where
  | plain : ConnTree
  | wrapperNone (connect_failed : Bool) : ConnTree
  | wrapperSome (connect_failed : Bool) (inner : ConnTree) : ConnTree
deriving DecidableEq

/-- Embedding of `AsyncConnectionInterface._cleanup` (interfaces.py lines
175-189): no _connection attribute returns the exception unchanged; a None
_connection marks _connect_failed; otherwise recurse into the nested
connection. -/
def connCleanup : ConnTree → PyExc → ConnTree × PyExc
  | ConnTree.plain, exc => (ConnTree.plain, exc)
  | ConnTree.wrapperNone _, exc => (ConnTree.wrapperNone true, exc)
  | ConnTree.wrapperSome cf c, exc =>
      let r := connCleanup c exc
      (ConnTree.wrapperSome cf r.1, r.2)

/-- Per-request bookkeeping entry of the pending queue of the pool. -/
structure RequestStatusm where
  request : Nat
  connection : Option ConnTree
deriving DecidableEq

/-- Pool state seen by `AsyncRequestInterface._cleanup`: the pending
request queue, plus a log of the statuses passed to response_closed
(response_closed itself lives in pool code that these definitions treat
as an event log). -/
structure PoolState where
  requests : List RequestStatusm
  response_closed_log : List RequestStatusm
deriving DecidableEq

/-- Outcome of running _cleanup: either it returns normally (no pending
exception) or an exception propagates out of it, alongside the final pool
state. -/
inductive CleanupResult where
  | returned (st : PoolState)
  | raised (e : PyExc) (st : PoolState)
deriving DecidableEq

/-- Embedding of `AsyncRequestInterface._cleanup` (interfaces.py lines
20-42). With no pending exception it returns. Otherwise it finds the last
status for this request; with no bound connection it removes the status
from the queue and re-raises; with a bound connection it calls
response_closed for a RuntimeError, but for any other exception it
evaluates the name `connection`, which is unbound at interfaces.py line
40, so a NameError propagates instead. -/
def poolCleanup (st : PoolState) (req : Nat) (excinfo : Option PyExc) : CleanupResult :=
  match excinfo with
  | none => CleanupResult.returned st
  | some exc =>
      let s := st.requests.filter (fun status => status.request == req)
      match s.getLast? with
      | none => CleanupResult.raised exc st
      | some status =>
          match status.connection with
          | none =>
              let st1 :=
                if status ∈ st.requests then
                  { st with requests := st.requests.erase status }
                else st
              CleanupResult.raised exc st1
          | some _conn =>
              match exc with
              | PyExc.runtimeError =>
                  CleanupResult.raised exc
                    { st with response_closed_log := st.response_closed_log ++ [status] }
              | _ => CleanupResult.raised PyExc.nameError st

/-- C6 (code bug): with a status whose connection is bound and a pending
non-RuntimeError exception, the cleanup path raises a NameError — the name
`connection` at interfaces.py line 40 is unbound (the nested
_cleanup/close path is never reached and the original exception is lost)
— instead of informing the bound connection and re-raising the original
exception as the claim states. -/
theorem pool_cleanup_raises_name_error :
    poolCleanup
        ⟨[⟨0, some (ConnTree.wrapperSome false ConnTree.plain)⟩], []⟩ 0
        (some (PyExc.otherExc 1)) =
      CleanupResult.raised PyExc.nameError
        ⟨[⟨0, some (ConnTree.wrapperSome false ConnTree.plain)⟩], []⟩
    ∧ connCleanup (ConnTree.wrapperSome false ConnTree.plain) (PyExc.otherExc 1) =
        (ConnTree.wrapperSome false ConnTree.plain, PyExc.otherExc 1) := by
  constructor <;> rfl

end Httpcore
